import Mathlib

/-!
A shallow embedding of the round-based action scheduling and world-state
evolution engine of the Actors-Actions repository
(src/backend/src/storage.py, src/backend/src/engines/world_engine.py,
src/backend/src/api.py).

The MongoDB document for one simulation is modelled as the structure `Sim`;
each storage method of `SimulationStorage` that mutates the document becomes a
pure function `Sim → ... → Sim` (one function application = one `update_one`
call).  `WorldEngine.process_round` and the background task
`_process_round_background` become pure functions over `Sim`; the two external
LLM providers are abstracted as inputs: the world-update provider as a list of
per-attempt outcomes (`Option WorldUpdate`, `none` = a parse/validation
failure of that attempt), the actor-decision provider as a function from
actor id to `Option ActionDecision` (`none` = the decision call failed after
its retries and the actor is skipped).  Wall-clock timestamps and the float
random seeds are not interpreted by any of the verified code paths; the
timestamp is omitted and seeds are carried as opaque `Nat` tokens.
-/

namespace ActorsActions

/-- Association-list lookup (first binding wins); models reading one key of a
Mongo sub-document. -/
def alistGet {κ α : Type} [DecidableEq κ] : List (κ × α) → κ → Option α
  | [], _ => none
  | (k', v) :: rest, k => if k' = k then some v else alistGet rest k

/-- Association-list update/insert; models `$set` on one key of a Mongo
sub-document (overwrites the key, appends it if absent). -/
def alistSet {κ α : Type} [DecidableEq κ] : List (κ × α) → κ → α → List (κ × α)
  | [], k, v => [(k, v)]
  | (k', v') :: rest, k, v =>
    if k' = k then (k, v) :: rest else (k', v') :: alistSet rest k v

/-- A scheduled action document (models.py `ScheduledAction` plus the outcome
fields that `update_scheduled_action_status` writes onto the dict). -/
structure ScheduledAction where
  actor_id : String
  action : String
  reasoning : String
  scheduled_round : Nat
  duration : Nat
  random_seed : Nat
  scheduled_at_round : Nat
  status : String
  outcome : Option String
  outcome_quality : Option String
  outcome_explanation : Option String
deriving DecidableEq, Repr

/-- A pending message document (storage.py `add_pending_message`). -/
structure PendingMessage where
  from_actor_id : String
  from_actor_identifier : String
  to_actor_id : String
  to_actor_identifier : String
  content : String
  sent_round : Nat
  deliver_round : Nat
deriving DecidableEq, Repr

/-- A multi-round action in progress (models.py `ActiveAction`). -/
structure ActiveAction where
  actor_id : String
  action : String
  reasoning : String
  started_round : Nat
  duration : Nat
  completes_round : Nat
  random_seed : Nat
  status : String
deriving DecidableEq, Repr

/-- One entry of an actor's `my_actions` history, as built by
`WorldEngine._convert_to_storage_format`. -/
structure MyActionItem where
  action : String
  reasoning : String
  scheduled_round : Nat
  duration : Nat
  status : String
  outcome : String
  outcome_quality : Option String
  outcome_explanation : Option String
  random_seed : Nat
deriving DecidableEq, Repr

/-- A message as it appears in an ActorRoundState's `messages_received`. -/
structure ReceivedMessage where
  from_actor_id : String
  from_actor_identifier : String
  content : String
  sent_round : Nat
deriving DecidableEq, Repr

/-- The per-actor per-round private state written by the engine. -/
structure ActorState where
  actor_id : String
  round_number : Nat
  observations : String
  world_state_summary : String
  available_actions : List String
  disabled_actions : List String
  resources : List (String × String)
  constraints : List String
  messages_received : List ReceivedMessage
  my_actions : List MyActionItem
  direct_impacts : String
  indirect_impacts : String
deriving DecidableEq, Repr

/-- One entry of the world update's `action_results` (LLM output; only
`actor_id` and `outcome` are accessed as required keys, the rest through
`.get` with defaults, hence `Option`). -/
structure ActionResult where
  actor_id : String
  outcome : String
  outcome_quality : Option String
  explanation : Option String
deriving DecidableEq, Repr

/-- The `state_changes` sub-document of an actor update; every field is read
through `.get` with a default. -/
structure StateChanges where
  enabled_actions : List String
  disabled_actions : List String
  resources : List (String × String)
  constraints : List String
deriving DecidableEq, Repr

/-- One entry of the world update's `actor_updates`.  `state_changes = none`
models a missing or non-dict value (the engine replaces it by `{}`). -/
structure ActorUpdate where
  actor_id : String
  observations : Option String
  state_changes : Option StateChanges
  direct_impacts : Option String
  indirect_impacts : Option String
deriving DecidableEq, Repr

/-- The `world_state_update` sub-document; all fields read via `.get`. -/
structure WorldStateUpdate where
  summary : Option String
  key_changes : Option (List String)
  emergent_developments : Option (List String)
deriving DecidableEq, Repr

/-- A world update that passed `_validate_world_update`'s required-field
check (the five required keys are present by construction; the
action/result mismatch check only prints a warning and never fails). -/
structure WorldUpdate where
  world_state_update : WorldStateUpdate
  action_results : List ActionResult
  actor_updates : List ActorUpdate
  continue_simulation : Bool
  continuation_reasoning : String
deriving DecidableEq, Repr

/-- A public round transcript entry (models.py `Round`); the wall-clock
`timestamp` field is not modelled. -/
structure RoundRecord where
  round_number : Nat
  world_state_summary : String
  key_changes : List String
  emergent_developments : List String
  action_results : List ActionResult
  continue_simulation : Bool
  continuation_reasoning : String
deriving DecidableEq, Repr

/-- An actor profile (static identity plus enrichment fields). -/
structure Actor where
  actor_id : String
  identifier : String
  granularity : String
  role_in_simulation : String
  memory : Option String
  intrinsic_characteristics : Option String
  predispositions : Option String
  enriched : Bool
deriving DecidableEq, Repr

/-- The full simulation document (storage.py `create_simulation`). -/
structure Sim where
  question : String
  time_unit : String
  simulation_duration : Nat
  status : String
  current_round : Nat
  actors : List Actor
  rounds : List RoundRecord
  actor_states : List (Nat × List (String × ActorState))
  action_schedule : List (Nat × List ScheduledAction)
  active_actions : List ActiveAction
  pending_messages : List PendingMessage
deriving DecidableEq, Repr

/-- storage.py `get_scheduled_actions`: the bucket for one round, `[]` if the
round has no bucket. -/
def Sim.get_scheduled_actions (sim : Sim) (round_number : Nat) :
    List ScheduledAction :=
  (alistGet sim.action_schedule round_number).getD []

/-- storage.py `schedule_action`: `$push` onto the per-round bucket keyed by
the action's `scheduled_round` (Mongo creates the array if absent). -/
def Sim.schedule_action (sim : Sim) (sa : ScheduledAction) : Sim :=
  { sim with action_schedule :=
      (alistSet sim.action_schedule sa.scheduled_round
        (sim.get_scheduled_actions sa.scheduled_round ++ [sa])) }

/-- The outcome dict passed to `update_scheduled_action_status` (built in
`WorldEngine.process_round` with all three keys present). -/
structure OutcomeDict where
  outcome : String
  outcome_quality : String
  explanation : String
deriving DecidableEq, Repr

/-- The in-Python loop of `update_scheduled_action_status`: update the first
action of the given actor in the bucket (then `break`); if the outcome dict
is present also write the outcome fields. -/
def updateActionInList (actor_id status : String) (outcome : Option OutcomeDict) :
    List ScheduledAction → List ScheduledAction
  | [] => []
  | a :: rest =>
    if a.actor_id = actor_id then
      (match outcome with
       | some o =>
         { a with status := status, outcome := some o.outcome,
                  outcome_quality := some o.outcome_quality,
                  outcome_explanation := some o.explanation }
       | none => { a with status := status }) :: rest
    else a :: updateActionInList actor_id status outcome rest

/-- storage.py `update_scheduled_action_status`: read the round's bucket,
update the first matching action in Python, `$set` the whole bucket back.
Note there is no failure path: if no action of the actor is in the bucket the
unchanged bucket (or an empty one) is written back. -/
def Sim.update_scheduled_action_status (sim : Sim) (round_number : Nat)
    (actor_id status : String) (outcome : Option OutcomeDict) : Sim :=
  let actions := sim.get_scheduled_actions round_number
  let actions := updateActionInList actor_id status outcome actions
  { sim with action_schedule := alistSet sim.action_schedule round_number actions }

/-- storage.py `add_pending_message`: `$push` onto `pending_messages`. -/
def Sim.add_pending_message (sim : Sim) (m : PendingMessage) : Sim :=
  { sim with pending_messages := sim.pending_messages ++ [m] }

/-- storage.py `get_messages_for_round`: all messages whose `deliver_round`
equals the round. -/
def Sim.get_messages_for_round (sim : Sim) (round_number : Nat) :
    List PendingMessage :=
  sim.pending_messages.filter (fun m => m.deliver_round == round_number)

/-- storage.py `clear_delivered_messages`: keep only messages not for this
round. -/
def Sim.clear_delivered_messages (sim : Sim) (round_number : Nat) : Sim :=
  { sim with pending_messages :=
      sim.pending_messages.filter (fun m => !(m.deliver_round == round_number)) }

/-- storage.py `add_active_action`: unconditional `$push` onto
`active_actions` (no duplicate check of any kind). -/
def Sim.add_active_action (sim : Sim) (aa : ActiveAction) : Sim :=
  { sim with active_actions := sim.active_actions ++ [aa] }

/-- storage.py `get_active_actions`. -/
def Sim.get_active_actions (sim : Sim) : List ActiveAction :=
  sim.active_actions

/-- storage.py `complete_active_action`: `$pull` every entry matching the
(actor_id, started_round) pair. -/
def Sim.complete_active_action (sim : Sim) (actor_id : String)
    (started_round : Nat) : Sim :=
  { sim with active_actions :=
      (sim.active_actions.filter
        (fun a => !(a.actor_id == actor_id && a.started_round == started_round))) }

/-- storage.py `add_round`: one single `update_one` that `$push`es the round
record, `$set`s the per-round actor states and `$inc`rements
`current_round` together. -/
def Sim.add_round (sim : Sim) (round_data : RoundRecord)
    (states : List (String × ActorState)) : Sim :=
  { sim with
      rounds := sim.rounds ++ [round_data],
      actor_states := alistSet sim.actor_states round_data.round_number states,
      current_round := sim.current_round + 1 }

/-- storage.py `update_simulation_status`. -/
def Sim.update_simulation_status (sim : Sim) (status : String) : Sim :=
  { sim with status := status }

/-- The previous-round actor-state map as read both by
`WorldEngine.process_round` and `WorldEngine._generate_empty_round`:
for round 0 there is none, otherwise the map stored under round − 1 (empty
if that key is absent). -/
def prevStatesOf (sim : Sim) (round_number : Nat) :
    List (String × ActorState) :=
  if round_number > 0 then (alistGet sim.actor_states (round_number - 1)).getD []
  else []

/-- The public round record built at the top of
`WorldEngine._convert_to_storage_format`. -/
def buildRoundData (world_update : WorldUpdate) (round_number : Nat) :
    RoundRecord :=
  { round_number := round_number,
    world_state_summary := world_update.world_state_update.summary.getD "",
    key_changes := world_update.world_state_update.key_changes.getD [],
    emergent_developments :=
      world_update.world_state_update.emergent_developments.getD [],
    action_results := world_update.action_results,
    continue_simulation := world_update.continue_simulation,
    continuation_reasoning := world_update.continuation_reasoning }

/-- The `my_actions` entry built for one due scheduled action in
`_convert_to_storage_format`: the first matching result of `action_results`
is used; if none matches, the outcome is recorded as "UNKNOWN" with `None`
quality and explanation, the status is "completed" either way. -/
def buildActionItem (round_number : Nat) (results : List ActionResult)
    (scheduled : ScheduledAction) : MyActionItem :=
  match results.find? (fun r => r.actor_id == scheduled.actor_id) with
  | some result =>
    { action := scheduled.action, reasoning := scheduled.reasoning,
      scheduled_round := round_number, duration := scheduled.duration,
      status := "completed", outcome := result.outcome,
      outcome_quality := some (result.outcome_quality.getD "modest"),
      outcome_explanation := some (result.explanation.getD ""),
      random_seed := scheduled.random_seed }
  | none =>
    { action := scheduled.action, reasoning := scheduled.reasoning,
      scheduled_round := round_number, duration := scheduled.duration,
      status := "completed", outcome := "UNKNOWN",
      outcome_quality := none, outcome_explanation := none,
      random_seed := scheduled.random_seed }

/-- The `action_items_by_actor` dict of `_convert_to_storage_format`
(a later action of the same actor overwrites an earlier one, as Python dict
assignment does). -/
def actionItemsByActor (round_number : Nat) (results : List ActionResult)
    (scheduled_actions : List ScheduledAction) :
    List (String × MyActionItem) :=
  scheduled_actions.foldl
    (fun m s => alistSet m s.actor_id (buildActionItem round_number results s)) []

/-- Projection of a stored `PendingMessage` to the shape put into
`messages_received` (`from_actor_identifier` read via `.get` with default,
but our stored messages always carry it). -/
def toReceivedMessage (m : PendingMessage) : ReceivedMessage :=
  { from_actor_id := m.from_actor_id,
    from_actor_identifier := m.from_actor_identifier,
    content := m.content, sent_round := m.sent_round }

/-- The per-actor state built in `_convert_to_storage_format` for one entry
of `actor_updates`: `my_actions` is the previous round's history for this
actor (empty if absent) extended by this round's action item if the actor
had a due action; `messages_received` are the round's pending messages
addressed to this actor. -/
def buildActorState (world_update : WorldUpdate) (round_number : Nat)
    (action_items : List (String × MyActionItem))
    (prev_actor_states : List (String × ActorState))
    (pending_messages : List PendingMessage) (update : ActorUpdate) :
    ActorState :=
  let prev_actions :=
    match alistGet prev_actor_states update.actor_id with
    | some st => st.my_actions
    | none => []
  let my_actions :=
    prev_actions ++
      (match alistGet action_items update.actor_id with
       | some item => [item]
       | none => [])
  let state_changes := update.state_changes.getD ⟨[], [], [], []⟩
  { actor_id := update.actor_id,
    round_number := round_number,
    observations := update.observations.getD "",
    world_state_summary := world_update.world_state_update.summary.getD "",
    available_actions := state_changes.enabled_actions,
    disabled_actions := state_changes.disabled_actions,
    resources := state_changes.resources,
    constraints := state_changes.constraints,
    messages_received :=
      (pending_messages.filter (fun m => m.to_actor_id == update.actor_id)).map
        toReceivedMessage,
    my_actions := my_actions,
    direct_impacts := update.direct_impacts.getD "",
    indirect_impacts := update.indirect_impacts.getD "" }

/-- `WorldEngine._convert_to_storage_format` (its unused `sim` parameter is
dropped): the round record plus the per-actor states, one per entry of
`actor_updates` (later duplicate actor ids overwrite earlier ones). -/
def convert_to_storage_format (world_update : WorldUpdate)
    (round_number : Nat) (scheduled_actions : List ScheduledAction)
    (prev_actor_states : List (String × ActorState))
    (pending_messages : List PendingMessage) :
    RoundRecord × List (String × ActorState) :=
  let round_data := buildRoundData world_update round_number
  let action_items :=
    actionItemsByActor round_number world_update.action_results scheduled_actions
  let actor_states :=
    world_update.actor_updates.foldl
      (fun m u => alistSet m u.actor_id
        (buildActorState world_update round_number action_items
          prev_actor_states pending_messages u)) []
  (round_data, actor_states)

/-- The round record synthesized by `WorldEngine._generate_empty_round`. -/
def emptyRoundRecord (round_number : Nat) : RoundRecord :=
  { round_number := round_number,
    world_state_summary := "No actions occurred this round.",
    key_changes := [], emergent_developments := [], action_results := [],
    continue_simulation := true,
    continuation_reasoning := "Waiting for actor decisions." }

/-- `WorldEngine._generate_empty_round`: the synthetic record plus the
previous round's states copied forward unchanged (empty for round 0 or when
the previous round stored no states). -/
def generate_empty_round (sim : Sim) (round_number : Nat) :
    RoundRecord × List (String × ActorState) :=
  (emptyRoundRecord round_number, prevStatesOf sim round_number)

/-- world_engine.py `MAX_RETRIES`. -/
def MAX_RETRIES : Nat := 3

/-- The first successful attempt of a list of provider attempts. -/
def firstValid : List (Option WorldUpdate) → Option WorldUpdate
  | [] => none
  | some w :: _ => some w
  | none :: rest => firstValid rest

/-- The bounded-retry loop around the world-update LLM call: up to
`MAX_RETRIES` attempts, each yielding either a parsed-and-validated update
or a failure; the first success wins, and exhausting the budget yields
`none` (the re-raised last error, surfaced as `ResolutionError`). -/
def callWorldUpdateProvider (attempts : List (Option WorldUpdate)) :
    Option WorldUpdate :=
  firstValid (attempts.take MAX_RETRIES)

/-- What `WorldEngine.process_round` returns to its caller. -/
structure RoundResult where
  round_data : RoundRecord
  actor_states : List (String × ActorState)
deriving DecidableEq, Repr

/-- The error surfaced when all world-update attempts fail structurally. -/
inductive EngineError where
  | resolutionError
deriving DecidableEq, Repr

/-- The `ActiveAction` document created in `process_round` when a due action
with duration > 1 is promoted. -/
def promoteAction (round_number : Nat) (a : ScheduledAction) : ActiveAction :=
  { actor_id := a.actor_id, action := a.action, reasoning := a.reasoning,
    started_round := round_number, duration := a.duration,
    completes_round := round_number + a.duration,
    random_seed := a.random_seed, status := "in_progress" }

/-- `process_round` write phase 1: clear the round's delivered messages, but
only when there were any (`if pending_messages: storage.clear_delivered_messages`). -/
def applyClear (round_number : Nat) (pending_messages : List PendingMessage)
    (sim : Sim) : Sim :=
  if pending_messages.isEmpty then sim
  else sim.clear_delivered_messages round_number

/-- `process_round` write phase 2: mark the action of every actor appearing
in `action_results` completed in the round's queue bucket, recording the
reported outcome. -/
def applyStatusUpdates (round_number : Nat) (results : List ActionResult)
    (sim : Sim) : Sim :=
  results.foldl
    (fun s r => s.update_scheduled_action_status round_number r.actor_id
      "completed"
      (some { outcome := r.outcome,
              outcome_quality := r.outcome_quality.getD "modest",
              explanation := r.explanation.getD "" })) sim

/-- `process_round` write phase 3: promote every due action with
duration > 1 into the active-action list (a plain push each time). -/
def applyPromotions (round_number : Nat)
    (scheduled_actions : List ScheduledAction) (sim : Sim) : Sim :=
  scheduled_actions.foldl
    (fun s a =>
      if a.duration > 1 then s.add_active_action (promoteAction round_number a)
      else s) sim

/-- `process_round` write phase 4: pull every active action whose completion
round is this round, scanning the snapshot taken before the promotions. -/
def applyCompletions (round_number : Nat)
    (active_actions : List ActiveAction) (sim : Sim) : Sim :=
  active_actions.foldl
    (fun s a =>
      if a.completes_round = round_number then
        s.complete_active_action a.actor_id a.started_round
      else s) sim

/-- `WorldEngine.process_round` as a pure state transformer, following the
source line by line: read the due bucket; on an empty bucket return the
synthetic empty round without touching storage and without consulting the
provider; otherwise snapshot the active actions and previous states, run the
retry loop (raising `ResolutionError` with nothing written if it exhausts),
convert the update, then perform the storage writes in source order:
`applyClear`, `applyStatusUpdates`, `applyPromotions`, `applyCompletions`. -/
def process_round (sim : Sim) (round_number : Nat)
    (attempts : List (Option WorldUpdate)) :
    Except EngineError (Sim × RoundResult) :=
  let scheduled_actions := sim.get_scheduled_actions round_number
  if scheduled_actions.isEmpty then
    let (rd, sts) := generate_empty_round sim round_number
    Except.ok (sim, ⟨rd, sts⟩)
  else
    let active_actions := sim.get_active_actions
    let prev_actor_states := prevStatesOf sim round_number
    match callWorldUpdateProvider attempts with
    | none => Except.error EngineError.resolutionError
    | some world_update =>
      let pending_messages := sim.get_messages_for_round round_number
      let (round_data, actor_states) :=
        convert_to_storage_format world_update round_number scheduled_actions
          prev_actor_states pending_messages
      let sim := applyClear round_number pending_messages sim
      let sim := applyStatusUpdates round_number world_update.action_results sim
      let sim := applyPromotions round_number scheduled_actions sim
      let sim := applyCompletions round_number active_actions sim
      Except.ok (sim, ⟨round_data, actor_states⟩)

/-- One action proposal of an actor decision (validated output of the actor
action engine). -/
structure ActionProposal where
  action : String
  reasoning : String
  execute_round : Nat
  duration : Nat
deriving DecidableEq, Repr

/-- One message proposal; `to_actor_id` carries the recipient's display
identifier (the engine resolves it against the roster). -/
structure MessageProposal where
  to_actor_id : String
  content : String
deriving DecidableEq, Repr

/-- A validated actor decision, in the two formats the background task
branches on: the new `{actions, messages}` shape or the old single-action
shape. -/
inductive ActionDecision where
  | newFormat (actions : List ActionProposal) (messages : List MessageProposal)
  | oldFormat (action : ActionProposal)
deriving DecidableEq, Repr

/-- Scheduling one proposal in `_process_round_background` step 1: a fresh
pending `ScheduledAction` whose `scheduled_at_round` is the round being
processed (the Python draws `random.random()` here; the seed is passed in as
an opaque token). -/
def scheduleFromProposal (actor_id : String) (current_round seed : Nat)
    (sim : Sim) (p : ActionProposal) : Sim :=
  sim.schedule_action
    { actor_id := actor_id, action := p.action, reasoning := p.reasoning,
      scheduled_round := p.execute_round, duration := p.duration,
      random_seed := seed, scheduled_at_round := current_round,
      status := "pending", outcome := none, outcome_quality := none,
      outcome_explanation := none }

/-- Delivering one message proposal in step 1: resolve the recipient's
identifier against the roster snapshot; if found, queue a pending message
with deliver round = current round + 1, otherwise drop the message (logged
only). -/
def deliverMessageProposal (roster : List Actor) (actor : Actor)
    (current_round : Nat) (sim : Sim) (m : MessageProposal) : Sim :=
  match roster.find? (fun a => a.identifier == m.to_actor_id) with
  | some recipient =>
    sim.add_pending_message
      { from_actor_id := actor.actor_id,
        from_actor_identifier := actor.identifier,
        to_actor_id := recipient.actor_id,
        to_actor_identifier := recipient.identifier,
        content := m.content, sent_round := current_round,
        deliver_round := current_round + 1 }
  | none => sim

/-- Step 1 of `_process_round_background` for one actor: a failed decision
call (after its own retries) is caught and the actor contributes nothing;
otherwise its proposals are scheduled and its messages queued. -/
def gatherForActor (roster : List Actor)
    (decisions : String → Option ActionDecision) (current_round seed : Nat)
    (sim : Sim) (actor : Actor) : Sim :=
  match decisions actor.actor_id with
  | none => sim
  | some (ActionDecision.newFormat actions messages) =>
    let sim := actions.foldl
      (scheduleFromProposal actor.actor_id current_round seed) sim
    messages.foldl (deliverMessageProposal roster actor current_round) sim
  | some (ActionDecision.oldFormat p) =>
    scheduleFromProposal actor.actor_id current_round seed sim p

/-- Step 1 of `_process_round_background`: iterate the roster snapshot,
gathering each actor's decision. -/
def gatherActions (sim : Sim) (current_round : Nat)
    (decisions : String → Option ActionDecision) (seed : Nat) : Sim :=
  sim.actors.foldl (gatherForActor sim.actors decisions current_round seed) sim

/-- api.py `_process_round_background`: gather decisions (step 1, persisted
immediately), then run the world engine; any engine failure is caught and
logged, leaving exactly the post-gather state; on success the round record
and actor states are stored by the single `add_round` operation (which also
increments the round counter), and the simulation is marked completed when
the record says not to continue. -/
def process_round_background (sim : Sim) (current_round : Nat)
    (decisions : String → Option ActionDecision) (seed : Nat)
    (attempts : List (Option WorldUpdate)) : Sim :=
  let sim1 := gatherActions sim current_round decisions seed
  match process_round sim1 current_round attempts with
  | Except.error _ => sim1
  | Except.ok (sim2, result) =>
    let sim3 := sim2.add_round result.round_data result.actor_states
    if result.round_data.continue_simulation then sim3
    else sim3.update_simulation_status "completed"

/-- The body of the `schedule-action` endpoint (api.py `schedule_action`)
once the simulation has been found: a missing seed is auto-assigned, the
action is pushed into the bucket of its requested `execute_round`, and —
notably — no comparison of the target round against `current_round` is
performed anywhere. -/
structure ActorActionRequest where
  actor_id : String
  action : String
  reasoning : String
  execute_round : Nat
  duration : Nat
  random_seed : Option Nat
deriving DecidableEq, Repr

/-- The schedule-action endpoint body: build the pending `ScheduledAction`
and push it; the request is accepted for any target round. -/
def api_schedule_action (sim : Sim) (req : ActorActionRequest)
    (fresh_seed : Nat) : Sim :=
  sim.schedule_action
    { actor_id := req.actor_id, action := req.action,
      reasoning := req.reasoning, scheduled_round := req.execute_round,
      duration := req.duration,
      random_seed := req.random_seed.getD fresh_seed,
      scheduled_at_round := sim.current_round, status := "pending",
      outcome := none, outcome_quality := none, outcome_explanation := none }

/-- Mongo positional update of the first actor matching an id
(storage.py `enrich_actor`). -/
def enrichInList (actor_id : String) (memory characteristics predispositions :
    String) : List Actor → List Actor
  | [] => []
  | a :: rest =>
    if a.actor_id = actor_id then
      { a with memory := some memory,
               intrinsic_characteristics := some characteristics,
               predispositions := some predispositions,
               enriched := true } :: rest
    else a :: enrichInList actor_id memory characteristics predispositions rest

/-- The storage operations the API layer performs on a simulation document,
with the field sets actually used at each call site (the `update_simulation`
call of `_generate_actors_background` is `updateGenerated`). -/
inductive StorageOp where
  | schedule (sa : ScheduledAction)
  | updateStatus (round_number : Nat) (actor_id status : String)
      (outcome : Option OutcomeDict)
  | addPendingMessage (m : PendingMessage)
  | clearDelivered (round_number : Nat)
  | addActive (aa : ActiveAction)
  | completeActive (actor_id : String) (started_round : Nat)
  | addRound (rd : RoundRecord) (states : List (String × ActorState))
  | setStatus (status : String)
  | updateGenerated (actors : List Actor) (time_unit : String)
      (simulation_duration : Nat) (status : String)
  | enrichActor (actor_id memory characteristics predispositions : String)

/-- Interpreting one storage operation on the document. -/
def applyOp (sim : Sim) : StorageOp → Sim
  | .schedule sa => sim.schedule_action sa
  | .updateStatus n a st o => sim.update_scheduled_action_status n a st o
  | .addPendingMessage m => sim.add_pending_message m
  | .clearDelivered n => sim.clear_delivered_messages n
  | .addActive aa => sim.add_active_action aa
  | .completeActive a r => sim.complete_active_action a r
  | .addRound rd sts => sim.add_round rd sts
  | .setStatus st => sim.update_simulation_status st
  | .updateGenerated actors tu dur st =>
    { sim with actors := actors, time_unit := tu,
               simulation_duration := dur, status := st }
  | .enrichActor a m c p => { sim with actors := enrichInList a m c p sim.actors }

/-- A sequence of storage operations applied in order. -/
def applyOps (sim : Sim) (ops : List StorageOp) : Sim :=
  ops.foldl applyOp sim

/-- The `my_actions` history recorded for an actor in the stored state of a
given round (empty if that round or actor has no stored state). -/
def myActionsAt (sim : Sim) (round_number : Nat) (actor_id : String) :
    List MyActionItem :=
  match alistGet sim.actor_states round_number with
  | some m =>
    match alistGet m actor_id with
    | some st => st.my_actions
    | none => []
  | none => []

/-- The `messages_received` recorded for an actor in the stored state of a
given round. -/
def messagesReceivedAt (sim : Sim) (round_number : Nat) (actor_id : String) :
    List ReceivedMessage :=
  match alistGet sim.actor_states round_number with
  | some m =>
    match alistGet m actor_id with
    | some st => st.messages_received
    | none => []
  | none => []

/-- The `my_actions` history an actor enters a round with: its entry in the
previous round's state map, empty when absent. -/
def prevMyActions (sim : Sim) (round_number : Nat) (actor_id : String) :
    List MyActionItem :=
  match alistGet (prevStatesOf sim round_number) actor_id with
  | some st => st.my_actions
  | none => []

/-- The active actions created by the promotion phase for one due bucket:
one entry per due action with duration > 1, in bucket order. -/
def promotedOf (round_number : Nat) :
    List ScheduledAction → List ActiveAction
  | [] => []
  | a :: rest =>
    if a.duration > 1 then
      promoteAction round_number a :: promotedOf round_number rest
    else promotedOf round_number rest

/-! ### Concrete fixtures used by counterexamples and witnesses -/

/-- A minimal actor profile. -/
def mkActor (id ident : String) : Actor :=
  { actor_id := id, identifier := ident, granularity := "individual",
    role_in_simulation := "participant", memory := none,
    intrinsic_characteristics := none, predispositions := none,
    enriched := false }

def actorA : Actor := mkActor "a1" "Alice"

def actorB : Actor := mkActor "b1" "Bob"

/-- A freshly enriched one-actor simulation about to process round 0. -/
def baseSim : Sim :=
  { question := "q", time_unit := "day", simulation_duration := 5,
    status := "enriched", current_round := 0, actors := [actorA],
    rounds := [], actor_states := [], action_schedule := [],
    active_actions := [], pending_messages := [] }

/-- The decision provider that fails for every actor. -/
def noDecisions : String → Option ActionDecision := fun _ => none

/-- A pending duration-1 action of actor a1 targeting round `r`. -/
def mkPendingAction (actor : String) (text : String) (r d seed : Nat) :
    ScheduledAction :=
  { actor_id := actor, action := text, reasoning := "why",
    scheduled_round := r, duration := d, random_seed := seed,
    scheduled_at_round := 0, status := "pending", outcome := none,
    outcome_quality := none, outcome_explanation := none }

/-- A minimal actor update mentioning only the actor id. -/
def mkUpdate (actor : String) : ActorUpdate :=
  { actor_id := actor, observations := none, state_changes := none,
    direct_impacts := none, indirect_impacts := none }

/-- A world update resolving a1's action as a success and mentioning both
fixture actors. -/
def wuBoth : WorldUpdate :=
  { world_state_update := ⟨some "world", some [], some []⟩,
    action_results := [⟨"a1", "SUCCESS", some "modest", some "ok"⟩],
    actor_updates := [mkUpdate "a1", mkUpdate "b1"],
    continue_simulation := true, continuation_reasoning := "go" }

/-- The decision provider used for the C2 scenario: a1 proposes one
duration-1 action for round 0. -/
def c2Decisions : String → Option ActionDecision := fun id =>
  if id = "a1" then
    some (ActionDecision.newFormat [⟨"act", "why", 0, 1⟩] [])
  else none

/-- A `my_actions` entry resolved in round 0, used to seed histories. -/
def item0 : MyActionItem :=
  { action := "act0", reasoning := "r0", scheduled_round := 0, duration := 1,
    status := "completed", outcome := "SUCCESS", outcome_quality := some "modest",
    outcome_explanation := some "", random_seed := 0 }

/-- a1's stored state after round 0 with a one-entry history. -/
def st0 : ActorState :=
  { actor_id := "a1", round_number := 0, observations := "obs",
    world_state_summary := "sum", available_actions := [],
    disabled_actions := [], resources := [], constraints := [],
    messages_received := [], my_actions := [item0], direct_impacts := "",
    indirect_impacts := "" }

/-- A simulation that has completed round 0 and is about to process an empty
round 1 (C3 scenario). -/
def c3Sim : Sim :=
  { baseSim with current_round := 1, rounds := [emptyRoundRecord 0],
                 actor_states := [(0, [("a1", st0)])] }

/-- A duration-2 action of a1 due in round 0 (C4 scenario). -/
def c4sa : ScheduledAction := mkPendingAction "a1" "dig" 0 2 0

/-- Round 0 of the C4 scenario has one due multi-round action. -/
def c4Sim : Sim := { baseSim with action_schedule := [(0, [c4sa])] }

/-- The three-round C4 run: the duration-2 action of a1 starts in round 0
and completes in round 2; rounds 1 and 2 have no due actions. -/
def c4Run : Sim :=
  let s1 := process_round_background c4Sim 0 noDecisions 0 [some wuBoth]
  let s2 := process_round_background s1 1 noDecisions 0 []
  process_round_background s2 2 noDecisions 0 []

/-- The C5 failing input: a simulation already at round 5 receiving a
request targeting round 3. -/
def c5Sim : Sim := { baseSim with current_round := 5 }

def c5Req : ActorActionRequest :=
  { actor_id := "a1", action := "late", reasoning := "r",
    execute_round := 3, duration := 1, random_seed := none }

/-- The two-actor simulation of the C6 messaging scenario. -/
def c6Sim : Sim := { baseSim with actors := [actorA, actorB] }

/-- Round-0 decisions of the C6 scenario: a1 acts and messages Bob. -/
def c6Dec0 : String → Option ActionDecision := fun id =>
  if id = "a1" then
    some (ActionDecision.newFormat [⟨"act0", "w", 0, 1⟩] [⟨"Bob", "hi"⟩])
  else none

/-- Round-1 decisions of the C6 scenario: a1 acts again (so that round 1 is
not empty and the message can be delivered). -/
def c6Dec1 : String → Option ActionDecision := fun id =>
  if id = "a1" then
    some (ActionDecision.newFormat [⟨"act1", "w", 1, 1⟩] [])
  else none

/-- The message as it should appear in Bob's round-1 state. -/
def c6Msg : ReceivedMessage :=
  { from_actor_id := "a1", from_actor_identifier := "Alice",
    content := "hi", sent_round := 0 }

/-- The end state of the three-round C6 run (message sent in round 0,
delivered in round 1, round 2 empty). -/
def c6Run : Sim :=
  let s1 := process_round_background c6Sim 0 c6Dec0 0 [some wuBoth]
  let s2 := process_round_background s1 1 c6Dec1 0 [some wuBoth]
  process_round_background s2 2 noDecisions 0 []

/-- Two due multi-round actions of the same actor in the same round
(C8 scenario). -/
def c8sa1 : ScheduledAction := mkPendingAction "a1" "x" 0 2 0

def c8sa2 : ScheduledAction := mkPendingAction "a1" "y" 0 3 1

def c8Sim : Sim := { baseSim with action_schedule := [(0, [c8sa1, c8sa2])] }

/-- The active-action list produced by processing the C8 round. -/
def c8Actives : Option (List ActiveAction) :=
  match process_round c8Sim 0 [some wuBoth] with
  | Except.ok (s, _) => some s.active_actions
  | Except.error _ => none

/-- A round-0 bucket holding one pending action of a1 (C9/C10 scenario). -/
def c9sa : ScheduledAction := mkPendingAction "a1" "x" 0 1 0

def c9Sim : Sim := { baseSim with action_schedule := [(0, [c9sa])] }

/-- A world update whose `action_results` omit a1 even though a1 has a due
action (C10 scenario); a1 still appears in `actor_updates`. -/
def c10WU : WorldUpdate :=
  { world_state_update := ⟨some "world", none, none⟩,
    action_results := [], actor_updates := [mkUpdate "a1"],
    continue_simulation := true, continuation_reasoning := "go" }

/-! ### General lemmas about the association-list and fold helpers -/

theorem alistGet_set_self {κ α : Type} [DecidableEq κ]
    (m : List (κ × α)) (k : κ) (v : α) :
    alistGet (alistSet m k v) k = some v := by
  induction m with
  | nil => simp [alistSet, alistGet]
  | cons p rest ih =>
    obtain ⟨k', v'⟩ := p
    by_cases h : k' = k
    · subst h; simp [alistSet, alistGet]
    · simp [alistSet, alistGet, h, ih]

theorem alistGet_set_ne {κ α : Type} [DecidableEq κ]
    (m : List (κ × α)) (k k' : κ) (v : α) (h : k' ≠ k) :
    alistGet (alistSet m k v) k' = alistGet m k' := by
  induction m with
  | nil => simp [alistSet, alistGet, Ne.symm h]
  | cons p rest ih =>
    obtain ⟨k'', v''⟩ := p
    by_cases h2 : k'' = k
    · subst h2; simp [alistSet, alistGet, Ne.symm h]
    · by_cases h3 : k'' = k'
      · subst h3; simp [alistSet, alistGet, h2]
      · simp [alistSet, alistGet, h2, h3, ih]

theorem alistGet_set_isSome {κ α : Type} [DecidableEq κ]
    (m : List (κ × α)) (k k' : κ) (v : α)
    (h : (alistGet m k').isSome = true) :
    (alistGet (alistSet m k v) k').isSome = true := by
  by_cases hk : k = k'
  · subst hk; rw [alistGet_set_self]; rfl
  · rwa [alistGet_set_ne _ _ _ _ (Ne.symm hk)]

theorem foldl_preserve {α β : Type} (g : Sim → β) (f : Sim → α → Sim) :
    ∀ l : List α, (∀ s : Sim, ∀ a ∈ l, g (f s a) = g s) →
      ∀ s : Sim, g (l.foldl f s) = g s := by
  intro l
  induction l with
  | nil => intro _ s; rfl
  | cons a t ih =>
    intro h s
    rw [List.foldl_cons,
      ih (fun s' b hb => h s' b (List.mem_cons_of_mem a hb)) (f s a),
      h s a (List.mem_cons_self a t)]

theorem foldl_extends {α β : Type} (g : Sim → List β) (Q : β → Prop)
    (f : Sim → α → Sim) :
    ∀ l : List α,
      (∀ s : Sim, ∀ a ∈ l, ∃ e, g (f s a) = g s ++ e ∧ ∀ x ∈ e, Q x) →
      ∀ s : Sim, ∃ e, g (l.foldl f s) = g s ++ e ∧ ∀ x ∈ e, Q x := by
  intro l
  induction l with
  | nil => intro _ s; exact ⟨[], by simp, by simp⟩
  | cons a t ih =>
    intro h s
    obtain ⟨e1, he1, hq1⟩ := h s a (List.mem_cons_self a t)
    obtain ⟨e2, he2, hq2⟩ :=
      ih (fun s' b hb => h s' b (List.mem_cons_of_mem a hb)) (f s a)
    refine ⟨e1 ++ e2, ?_, ?_⟩
    · rw [List.foldl_cons, he2, he1, List.append_assoc]
    · intro x hx
      rcases List.mem_append.mp hx with h1 | h2
      · exact hq1 x h1
      · exact hq2 x h2

theorem alistGet_foldl_set {κ α β : Type} [DecidableEq κ]
    (key : β → κ) (B : β → α) :
    ∀ (xs : List β) (m : List (κ × α)) (k : κ) (v : α),
      alistGet (xs.foldl (fun acc u => alistSet acc (key u) (B u)) m) k
        = some v →
      (∃ u ∈ xs, key u = k ∧ v = B u) ∨ alistGet m k = some v := by
  intro xs
  induction xs with
  | nil => intro m k v h; exact Or.inr h
  | cons u t ih =>
    intro m k v h
    rw [List.foldl_cons] at h
    rcases ih _ _ _ h with h1 | h2
    · obtain ⟨u', hu', hk, hv⟩ := h1
      exact Or.inl ⟨u', List.mem_cons_of_mem u hu', hk, hv⟩
    · by_cases hk : key u = k
      · subst hk
        rw [alistGet_set_self] at h2
        exact Or.inl ⟨u, List.mem_cons_self u t, rfl,
          (Option.some_inj.mp h2).symm⟩
      · right
        rwa [alistGet_set_ne _ _ _ _ (fun hh => hk hh.symm)] at h2

theorem alistGet_foldl_set_isSome {κ α β : Type} [DecidableEq κ]
    (key : β → κ) (B : β → α) :
    ∀ (xs : List β) (m : List (κ × α)) (k : κ),
      ((∃ u ∈ xs, key u = k) ∨ (alistGet m k).isSome = true) →
      (alistGet (xs.foldl (fun acc u => alistSet acc (key u) (B u)) m)
        k).isSome = true := by
  intro xs
  induction xs with
  | nil =>
    intro m k h
    rcases h with ⟨u, hu, _⟩ | h2
    · exact absurd hu (List.not_mem_nil u)
    · exact h2
  | cons u t ih =>
    intro m k h
    rw [List.foldl_cons]
    apply ih
    rcases h with ⟨u', hu', hk⟩ | h2
    · rcases List.mem_cons.mp hu' with rfl | ht
      · right; rw [hk, alistGet_set_self]; rfl
      · exact Or.inl ⟨u', ht, hk⟩
    · exact Or.inr (alistGet_set_isSome _ _ _ _ h2)

/-! ### Effect of the gathering phase (step 1 of the background task) -/

theorem get_scheduled_schedule (s : Sim) (sa : ScheduledAction) (r : Nat) :
    (s.schedule_action sa).get_scheduled_actions r =
      if sa.scheduled_round = r then s.get_scheduled_actions r ++ [sa]
      else s.get_scheduled_actions r := by
  by_cases h : sa.scheduled_round = r
  · subst h
    simp [Sim.schedule_action, Sim.get_scheduled_actions, alistGet_set_self]
  · simp [Sim.schedule_action, Sim.get_scheduled_actions,
      alistGet_set_ne _ _ _ _ (fun hh => h hh.symm), h]

theorem gatherForActor_preserve {β : Type} (g : Sim → β)
    (hsched : ∀ (s : Sim) sa, g (s.schedule_action sa) = g s)
    (hmsg : ∀ (s : Sim) m, g (s.add_pending_message m) = g s)
    (roster : List Actor) (dec : String → Option ActionDecision)
    (n seed : Nat) (s : Sim) (actor : Actor) :
    g (gatherForActor roster dec n seed s actor) = g s := by
  unfold gatherForActor
  cases dec actor.actor_id with
  | none => rfl
  | some d =>
    cases d with
    | oldFormat p => exact hsched s _
    | newFormat acts msgs =>
      have h1 : g (acts.foldl (scheduleFromProposal actor.actor_id n seed) s)
          = g s :=
        foldl_preserve g _ acts (fun s' a _ => hsched s' _) s
      have h2 : ∀ s' : Sim, ∀ m ∈ msgs,
          g (deliverMessageProposal roster actor n s' m) = g s' := by
        intro s' m _
        unfold deliverMessageProposal
        cases roster.find? (fun a => a.identifier == m.to_actor_id) with
        | none => rfl
        | some recipient => exact hmsg s' _
      rw [foldl_preserve g _ msgs h2 _, h1]

theorem gather_preserve {β : Type} (g : Sim → β)
    (hsched : ∀ (s : Sim) sa, g (s.schedule_action sa) = g s)
    (hmsg : ∀ (s : Sim) m, g (s.add_pending_message m) = g s)
    (sim : Sim) (n : Nat) (dec : String → Option ActionDecision) (seed : Nat) :
    g (gatherActions sim n dec seed) = g sim :=
  foldl_preserve g _ sim.actors
    (fun s a _ => gatherForActor_preserve g hsched hmsg sim.actors dec n seed s a)
    sim

theorem gatherForActor_bucket_extends (roster : List Actor)
    (dec : String → Option ActionDecision) (n seed : Nat)
    (s : Sim) (actor : Actor) (r : Nat) :
    ∃ e, (gatherForActor roster dec n seed s actor).get_scheduled_actions r
        = s.get_scheduled_actions r ++ e ∧ ∀ a ∈ e, a.status = "pending" := by
  have hstep : ∀ (s' : Sim) (sa : ScheduledAction), sa.status = "pending" →
      ∃ e, (s'.schedule_action sa).get_scheduled_actions r
          = s'.get_scheduled_actions r ++ e ∧ ∀ a ∈ e, a.status = "pending" := by
    intro s' sa hp
    rw [get_scheduled_schedule]
    by_cases h : sa.scheduled_round = r
    · rw [if_pos h]
      exact ⟨[sa], rfl, by simpa using hp⟩
    · rw [if_neg h]
      exact ⟨[], by simp, by simp⟩
  unfold gatherForActor
  cases dec actor.actor_id with
  | none => exact ⟨[], by simp, by simp⟩
  | some d =>
    cases d with
    | oldFormat p => exact hstep s _ rfl
    | newFormat acts msgs =>
      have h1 := foldl_extends (fun s' => s'.get_scheduled_actions r)
        (fun a => a.status = "pending")
        (scheduleFromProposal actor.actor_id n seed) acts
        (fun s' a _ => hstep s' _ rfl) s
      have h2 := foldl_extends (fun s' => s'.get_scheduled_actions r)
        (fun a => a.status = "pending")
        (deliverMessageProposal roster actor n) msgs
        (fun s' m _ => by
          unfold deliverMessageProposal
          cases roster.find? (fun a => a.identifier == m.to_actor_id) with
          | none => exact ⟨[], by simp, by simp⟩
          | some recipient =>
            exact ⟨[], by
              simp [Sim.add_pending_message, Sim.get_scheduled_actions], by simp⟩)
        (acts.foldl (scheduleFromProposal actor.actor_id n seed) s)
      obtain ⟨e1, he1, hq1⟩ := h1
      obtain ⟨e2, he2, hq2⟩ := h2
      refine ⟨e1 ++ e2, ?_, ?_⟩
      · rw [he2, he1, List.append_assoc]
      · intro x hx
        rcases List.mem_append.mp hx with hx1 | hx2
        · exact hq1 x hx1
        · exact hq2 x hx2

theorem gather_bucket_extends (sim : Sim) (n : Nat)
    (dec : String → Option ActionDecision) (seed : Nat) (r : Nat) :
    ∃ e, (gatherActions sim n dec seed).get_scheduled_actions r
        = sim.get_scheduled_actions r ++ e ∧ ∀ a ∈ e, a.status = "pending" :=
  foldl_extends (fun s' => s'.get_scheduled_actions r)
    (fun a => a.status = "pending")
    (gatherForActor sim.actors dec n seed) sim.actors
    (fun s a _ => gatherForActor_bucket_extends sim.actors dec n seed s a r) sim

theorem gatherForActor_messages_extends (roster : List Actor)
    (dec : String → Option ActionDecision) (n seed : Nat)
    (s : Sim) (actor : Actor) :
    ∃ e, (gatherForActor roster dec n seed s actor).pending_messages
        = s.pending_messages ++ e
      ∧ ∀ m ∈ e, m.deliver_round = n + 1 ∧ m.sent_round = n := by
  unfold gatherForActor
  cases dec actor.actor_id with
  | none => exact ⟨[], by simp, by simp⟩
  | some d =>
    cases d with
    | oldFormat p =>
      exact ⟨[], by simp [scheduleFromProposal, Sim.schedule_action], by simp⟩
    | newFormat acts msgs =>
      have h1 := foldl_extends Sim.pending_messages
        (fun m => m.deliver_round = n + 1 ∧ m.sent_round = n)
        (scheduleFromProposal actor.actor_id n seed) acts
        (fun s' a _ => ⟨[], by simp [scheduleFromProposal, Sim.schedule_action],
          by simp⟩) s
      have h2 := foldl_extends Sim.pending_messages
        (fun m => m.deliver_round = n + 1 ∧ m.sent_round = n)
        (deliverMessageProposal roster actor n) msgs
        (fun s' m _ => by
          unfold deliverMessageProposal
          cases roster.find? (fun a => a.identifier == m.to_actor_id) with
          | none => exact ⟨[], by simp, by simp⟩
          | some recipient =>
            exact ⟨[_], rfl, by simp [Sim.add_pending_message]⟩)
        (acts.foldl (scheduleFromProposal actor.actor_id n seed) s)
      obtain ⟨e1, he1, hq1⟩ := h1
      obtain ⟨e2, he2, hq2⟩ := h2
      refine ⟨e1 ++ e2, ?_, ?_⟩
      · rw [he2, he1, List.append_assoc]
      · intro x hx
        rcases List.mem_append.mp hx with hx1 | hx2
        · exact hq1 x hx1
        · exact hq2 x hx2

theorem gather_messages_extends (sim : Sim) (n : Nat)
    (dec : String → Option ActionDecision) (seed : Nat) :
    ∃ e, (gatherActions sim n dec seed).pending_messages
        = sim.pending_messages ++ e
      ∧ ∀ m ∈ e, m.deliver_round = n + 1 ∧ m.sent_round = n :=
  foldl_extends Sim.pending_messages
    (fun m => m.deliver_round = n + 1 ∧ m.sent_round = n)
    (gatherForActor sim.actors dec n seed) sim.actors
    (fun s a _ => gatherForActor_messages_extends sim.actors dec n seed s a) sim

/-! ### Case analysis of `process_round` -/

theorem process_round_empty (sim : Sim) (n : Nat)
    (attempts : List (Option WorldUpdate))
    (h : sim.get_scheduled_actions n = []) :
    process_round sim n attempts
      = Except.ok (sim, ⟨emptyRoundRecord n, prevStatesOf sim n⟩) := by
  unfold process_round
  rw [h]
  rfl

theorem process_round_resolution_error (sim : Sim) (n : Nat)
    (attempts : List (Option WorldUpdate))
    (hne : sim.get_scheduled_actions n ≠ [])
    (hwu : callWorldUpdateProvider attempts = none) :
    process_round sim n attempts = Except.error EngineError.resolutionError := by
  unfold process_round
  rw [if_neg (by simpa [List.isEmpty_iff] using hne), hwu]

theorem process_round_some (sim : Sim) (n : Nat)
    (attempts : List (Option WorldUpdate)) (wu : WorldUpdate)
    (hne : sim.get_scheduled_actions n ≠ [])
    (hwu : callWorldUpdateProvider attempts = some wu) :
    process_round sim n attempts = Except.ok
      (applyCompletions n sim.active_actions
        (applyPromotions n (sim.get_scheduled_actions n)
          (applyStatusUpdates n wu.action_results
            (applyClear n (sim.get_messages_for_round n) sim))),
       ⟨(convert_to_storage_format wu n (sim.get_scheduled_actions n)
           (prevStatesOf sim n) (sim.get_messages_for_round n)).1,
        (convert_to_storage_format wu n (sim.get_scheduled_actions n)
           (prevStatesOf sim n) (sim.get_messages_for_round n)).2⟩) := by
  unfold process_round
  rw [if_neg (by simpa [List.isEmpty_iff] using hne), hwu]
  rfl

theorem process_round_ok_cases (sim : Sim) (n : Nat)
    (attempts : List (Option WorldUpdate)) (sim2 : Sim) (res : RoundResult)
    (hok : process_round sim n attempts = Except.ok (sim2, res)) :
    (sim.get_scheduled_actions n = [] ∧ sim2 = sim
      ∧ res = ⟨emptyRoundRecord n, prevStatesOf sim n⟩)
    ∨ (∃ wu, sim.get_scheduled_actions n ≠ []
        ∧ callWorldUpdateProvider attempts = some wu
        ∧ sim2 = applyCompletions n sim.active_actions
            (applyPromotions n (sim.get_scheduled_actions n)
              (applyStatusUpdates n wu.action_results
                (applyClear n (sim.get_messages_for_round n) sim)))
        ∧ res = ⟨(convert_to_storage_format wu n (sim.get_scheduled_actions n)
              (prevStatesOf sim n) (sim.get_messages_for_round n)).1,
            (convert_to_storage_format wu n (sim.get_scheduled_actions n)
              (prevStatesOf sim n) (sim.get_messages_for_round n)).2⟩) := by
  by_cases hb : sim.get_scheduled_actions n = []
  · left
    rw [process_round_empty sim n attempts hb] at hok
    have h2 := (Except.ok.injEq _ _).mp hok
    exact ⟨hb, congrArg Prod.fst h2 |>.symm, congrArg Prod.snd h2 |>.symm⟩
  · right
    cases hwu : callWorldUpdateProvider attempts with
    | none =>
      rw [process_round_resolution_error sim n attempts hb hwu] at hok
      exact absurd hok (by simp)
    | some wu =>
      rw [process_round_some sim n attempts wu hb hwu] at hok
      have h2 := (Except.ok.injEq _ _).mp hok
      exact ⟨wu, hb, rfl, congrArg Prod.fst h2 |>.symm,
        congrArg Prod.snd h2 |>.symm⟩

/-! ### Field preservation through the write phases -/

theorem applyClear_preserve {β : Type} (g : Sim → β)
    (h : ∀ (s : Sim) (r : Nat), g (s.clear_delivered_messages r) = g s)
    (n : Nat) (msgs : List PendingMessage) (s : Sim) :
    g (applyClear n msgs s) = g s := by
  unfold applyClear
  split
  · rfl
  · exact h s n

theorem applyStatusUpdates_preserve {β : Type} (g : Sim → β)
    (h : ∀ (s : Sim) (n : Nat) (a st : String) (o : Option OutcomeDict),
      g (s.update_scheduled_action_status n a st o) = g s)
    (n : Nat) (rs : List ActionResult) (s : Sim) :
    g (applyStatusUpdates n rs s) = g s :=
  foldl_preserve g _ rs (fun s' r _ => h s' n r.actor_id "completed" _) s

theorem applyPromotions_preserve {β : Type} (g : Sim → β)
    (h : ∀ (s : Sim) (aa : ActiveAction), g (s.add_active_action aa) = g s)
    (n : Nat) (sas : List ScheduledAction) (s : Sim) :
    g (applyPromotions n sas s) = g s :=
  foldl_preserve g _ sas
    (fun s' a _ => by
      split
      · exact h s' _
      · rfl) s

theorem applyCompletions_preserve {β : Type} (g : Sim → β)
    (h : ∀ (s : Sim) (a : String) (r : Nat),
      g (s.complete_active_action a r) = g s)
    (n : Nat) (acts : List ActiveAction) (s : Sim) :
    g (applyCompletions n acts s) = g s :=
  foldl_preserve g _ acts
    (fun s' a _ => by
      split
      · exact h s' _ _
      · rfl) s

theorem process_round_ok_current_round (sim : Sim) (n : Nat)
    (attempts : List (Option WorldUpdate)) (sim2 : Sim) (res : RoundResult)
    (hok : process_round sim n attempts = Except.ok (sim2, res)) :
    sim2.current_round = sim.current_round := by
  rcases process_round_ok_cases sim n attempts sim2 res hok with
    ⟨_, rfl, _⟩ | ⟨wu, _, _, rfl, _⟩
  · rfl
  · rw [applyCompletions_preserve (fun s => s.current_round) (fun _ _ _ => rfl),
      applyPromotions_preserve (fun s => s.current_round) (fun _ _ => rfl),
      applyStatusUpdates_preserve (fun s => s.current_round)
        (fun _ _ _ _ _ => rfl),
      applyClear_preserve (fun s => s.current_round) (fun _ _ => rfl)]

/-! ### Lemmas about the storage-format conversion -/

theorem buildActorState_my_actions (wu : WorldUpdate) (n : Nat)
    (items : List (String × MyActionItem))
    (prev : List (String × ActorState)) (pend : List PendingMessage)
    (u : ActorUpdate) :
    (buildActorState wu n items prev pend u).my_actions =
      (match alistGet prev u.actor_id with
       | some st => st.my_actions
       | none => []) ++
      (match alistGet items u.actor_id with
       | some item => [item]
       | none => []) := rfl

theorem buildActorState_messages (wu : WorldUpdate) (n : Nat)
    (items : List (String × MyActionItem))
    (prev : List (String × ActorState)) (pend : List PendingMessage)
    (u : ActorUpdate) :
    (buildActorState wu n items prev pend u).messages_received =
      (pend.filter (fun m => m.to_actor_id == u.actor_id)).map
        toReceivedMessage := rfl

theorem convert_states_get (wu : WorldUpdate) (n : Nat)
    (sas : List ScheduledAction) (prev : List (String × ActorState))
    (pend : List PendingMessage) (actor_id : String) (st : ActorState)
    (h : alistGet (convert_to_storage_format wu n sas prev pend).2 actor_id
        = some st) :
    ∃ u ∈ wu.actor_updates, u.actor_id = actor_id ∧
      st = buildActorState wu n (actionItemsByActor n wu.action_results sas)
        prev pend u := by
  have h2 := alistGet_foldl_set (fun u : ActorUpdate => u.actor_id)
    (buildActorState wu n (actionItemsByActor n wu.action_results sas)
      prev pend) wu.actor_updates [] actor_id st h
  rcases h2 with ⟨u, hu, hk, hv⟩ | h3
  · exact ⟨u, hu, hk, hv⟩
  · exact absurd h3 (by simp [alistGet])

theorem buildActionItem_scheduled_round (n : Nat) (rs : List ActionResult)
    (s : ScheduledAction) :
    (buildActionItem n rs s).scheduled_round = n := by
  unfold buildActionItem
  split <;> rfl

theorem buildActionItem_no_result (n : Nat) (rs : List ActionResult)
    (s : ScheduledAction)
    (h : ∀ r ∈ rs, r.actor_id ≠ s.actor_id) :
    (buildActionItem n rs s).outcome = "UNKNOWN"
      ∧ (buildActionItem n rs s).status = "completed"
      ∧ (buildActionItem n rs s).outcome_quality = none := by
  have hf : rs.find? (fun r => r.actor_id == s.actor_id) = none := by
    rw [List.find?_eq_none]
    intro r hr
    simpa using h r hr
  unfold buildActionItem
  rw [hf]
  exact ⟨rfl, rfl, rfl⟩

theorem actionItems_get (n : Nat) (rs : List ActionResult)
    (sas : List ScheduledAction) (actor : String) (it : MyActionItem)
    (h : alistGet (actionItemsByActor n rs sas) actor = some it) :
    ∃ s ∈ sas, s.actor_id = actor ∧ it = buildActionItem n rs s := by
  have h2 := alistGet_foldl_set (fun s : ScheduledAction => s.actor_id)
    (buildActionItem n rs) sas [] actor it h
  rcases h2 with ⟨u, hu, hk, hv⟩ | h3
  · exact ⟨u, hu, hk, hv⟩
  · exact absurd h3 (by simp [alistGet])

theorem actionItems_isSome (n : Nat) (rs : List ActionResult)
    (sas : List ScheduledAction) (actor : String)
    (h : ∃ s ∈ sas, s.actor_id = actor) :
    (alistGet (actionItemsByActor n rs sas) actor).isSome = true :=
  alistGet_foldl_set_isSome (fun s : ScheduledAction => s.actor_id)
    (buildActionItem n rs) sas [] actor (Or.inl h)

theorem actionItems_none (n : Nat) (rs : List ActionResult)
    (sas : List ScheduledAction) (actor : String)
    (h : alistGet (actionItemsByActor n rs sas) actor = none) :
    ¬ ∃ s ∈ sas, s.actor_id = actor := by
  intro hex
  have := actionItems_isSome n rs sas actor hex
  rw [h] at this
  exact absurd this (by simp)

/-! ### Lemmas about the queue-status write phase -/

theorem update_status_get_same (s : Sim) (n : Nat) (b st : String)
    (o : Option OutcomeDict) :
    (s.update_scheduled_action_status n b st o).get_scheduled_actions n =
      updateActionInList b st o (s.get_scheduled_actions n) := by
  simp [Sim.update_scheduled_action_status, Sim.get_scheduled_actions,
    alistGet_set_self]

theorem updateActionInList_filter_ne (actor b st : String)
    (o : Option OutcomeDict) (h : b ≠ actor) :
    ∀ l : List ScheduledAction,
      (updateActionInList b st o l).filter (fun a => a.actor_id == actor)
        = l.filter (fun a => a.actor_id == actor) := by
  intro l
  induction l with
  | nil => rfl
  | cons a rest ih =>
    unfold updateActionInList
    by_cases ha : a.actor_id = b
    · rw [if_pos ha]
      have hfa : (a.actor_id == actor) = false := by
        simp [ha, h]
      cases o with
      | none => simp [List.filter_cons, hfa, ha, h]
      | some oc => simp [List.filter_cons, hfa, ha, h]
    · rw [if_neg ha]
      simp only [List.filter_cons, ih]

theorem applyStatusUpdates_filter (n : Nat) (actor : String)
    (rs : List ActionResult) (hmiss : ∀ r ∈ rs, r.actor_id ≠ actor)
    (s : Sim) :
    ((applyStatusUpdates n rs s).get_scheduled_actions n).filter
        (fun a => a.actor_id == actor)
      = (s.get_scheduled_actions n).filter (fun a => a.actor_id == actor) :=
  foldl_preserve
    (fun s' => (s'.get_scheduled_actions n).filter
      (fun a => a.actor_id == actor)) _ rs
    (fun s' r hr => by
      dsimp only
      rw [update_status_get_same,
        updateActionInList_filter_ne actor r.actor_id _ _ (hmiss r hr)]) s

theorem updateActionInList_no_match (actor st : String)
    (o : Option OutcomeDict) :
    ∀ l : List ScheduledAction, (∀ a ∈ l, a.actor_id ≠ actor) →
      updateActionInList actor st o l = l := by
  intro l
  induction l with
  | nil => intro _; rfl
  | cons a rest ih =>
    intro h
    unfold updateActionInList
    rw [if_neg (h a (List.mem_cons_self a rest)),
      ih (fun b hb => h b (List.mem_cons_of_mem a hb))]

/-! ### Lemmas about the active-action write phases -/

theorem applyPromotions_actives (n : Nat) :
    ∀ (sas : List ScheduledAction) (s : Sim),
      (applyPromotions n sas s).active_actions
        = s.active_actions ++ promotedOf n sas := by
  intro sas
  induction sas with
  | nil => intro s; simp [applyPromotions, promotedOf]
  | cons a rest ih =>
    intro s
    unfold applyPromotions at ih ⊢
    rw [List.foldl_cons]
    by_cases h : a.duration > 1
    · rw [if_pos h, ih]
      simp [Sim.add_active_action, promotedOf, h, List.append_assoc]
    · rw [if_neg h, ih]
      simp [promotedOf, h]

theorem promotedOf_mem (n : Nat) (sa : ScheduledAction) :
    ∀ sas : List ScheduledAction, sa ∈ sas → 1 < sa.duration →
      promoteAction n sa ∈ promotedOf n sas := by
  intro sas
  induction sas with
  | nil => intro h _; exact absurd h (List.not_mem_nil sa)
  | cons a rest ih =>
    intro h hd
    rcases List.mem_cons.mp h with rfl | ht
    · unfold promotedOf
      rw [if_pos hd]
      exact List.mem_cons_self _ _
    · unfold promotedOf
      by_cases h2 : a.duration > 1
      · rw [if_pos h2]
        exact List.mem_cons_of_mem _ (ih ht hd)
      · rw [if_neg h2]
        exact ih ht hd

theorem applyCompletions_subset (n : Nat) :
    ∀ (acts : List ActiveAction) (s : Sim) (x : ActiveAction),
      x ∈ (applyCompletions n acts s).active_actions →
      x ∈ s.active_actions := by
  intro acts
  induction acts with
  | nil => intro s x h; exact h
  | cons a rest ih =>
    intro s x h
    unfold applyCompletions at h
    rw [List.foldl_cons] at h
    have h2 := ih _ x h
    by_cases hc : a.completes_round = n
    · rw [if_pos hc] at h2
      exact List.mem_of_mem_filter h2
    · rwa [if_neg hc] at h2

theorem applyCompletions_mem (n : Nat) :
    ∀ (acts : List ActiveAction) (s : Sim) (x : ActiveAction),
      x ∈ s.active_actions →
      (∀ c ∈ acts, c.completes_round = n →
        ¬(c.actor_id = x.actor_id ∧ c.started_round = x.started_round)) →
      x ∈ (applyCompletions n acts s).active_actions := by
  intro acts
  induction acts with
  | nil => intro s x hx _; exact hx
  | cons a rest ih =>
    intro s x hx h
    unfold applyCompletions
    rw [List.foldl_cons]
    apply ih
    · by_cases hc : a.completes_round = n
      · rw [if_pos hc]
        have hna := h a (List.mem_cons_self a rest) hc
        simp only [Sim.complete_active_action, List.mem_filter]
        refine ⟨hx, ?_⟩
        simp only [Bool.not_eq_eq_eq_not, Bool.not_true, Bool.and_eq_false_imp]
        intro h1
        have h1' : x.actor_id = a.actor_id := by simpa using h1
        by_contra h2
        have h2' : x.started_round = a.started_round := by simpa using h2
        exact hna ⟨h1'.symm, h2'.symm⟩
      · rwa [if_neg hc]
    · intro c hc hcn
      exact h c (List.mem_cons_of_mem a hc) hcn

theorem applyCompletions_not_mem (n : Nat) :
    ∀ (acts : List ActiveAction) (s : Sim) (x c : ActiveAction),
      c ∈ acts → c.completes_round = n → x.actor_id = c.actor_id →
      x.started_round = c.started_round →
      x ∉ (applyCompletions n acts s).active_actions := by
  intro acts
  induction acts with
  | nil => intro s x c hc _ _ _; exact absurd hc (List.not_mem_nil c)
  | cons a rest ih =>
    intro s x c hc hcn hxa hxs hmem
    unfold applyCompletions at hmem
    rw [List.foldl_cons] at hmem
    rcases List.mem_cons.mp hc with rfl | ht
    · rw [if_pos hcn] at hmem
      have h2 := applyCompletions_subset n rest _ x hmem
      simp only [Sim.complete_active_action, List.mem_filter] at h2
      have h3 := h2.2
      simp [hxa, hxs] at h3
    · exact ih _ x c ht hcn hxa hxs hmem

/-! ### Message filter lemmas -/

theorem filter_not_of_filter_eq_nil (l : List PendingMessage) (n : Nat)
    (h : l.filter (fun m => m.deliver_round == n) = []) :
    l.filter (fun m => !(m.deliver_round == n)) = l := by
  rw [List.filter_eq_self]
  intro m hm
  simp only [List.filter_eq_nil_iff] at h
  simpa using h m hm

theorem applyClear_pending (n : Nat) (s : Sim) :
    (applyClear n (s.get_messages_for_round n) s).pending_messages
      = s.pending_messages.filter (fun m => !(m.deliver_round == n)) := by
  unfold applyClear
  by_cases h : (s.get_messages_for_round n).isEmpty
  · rw [if_pos h]
    have h2 : s.get_messages_for_round n = [] := List.isEmpty_iff.mp h
    unfold Sim.get_messages_for_round at h2
    exact (filter_not_of_filter_eq_nil _ _ h2).symm
  · rw [if_neg h]
    rfl

theorem applyOp_current_round_le (sim : Sim) (op : StorageOp) :
    sim.current_round ≤ (applyOp sim op).current_round := by
  cases op
  case addRound rd sts => exact Nat.le_succ _
  all_goals exact le_refl _

/-! ### Claim theorems -/

/-- C1: after round N is processed successfully the simulation's
`current_round` equals N + 1; the round-counter increment is applied by the
same single persistence operation (`add_round`, one `update_one`) that
appends the round record and sets the per-round actor states, so all three
become visible together; and no storage operation of the API layer ever
decreases `current_round`. -/
theorem round_counter_advances_atomically_and_monotone :
    (∀ (sim : Sim) (rd : RoundRecord) (sts : List (String × ActorState)),
        (sim.add_round rd sts).current_round = sim.current_round + 1
        ∧ (sim.add_round rd sts).rounds = sim.rounds ++ [rd]
        ∧ (sim.add_round rd sts).actor_states
            = alistSet sim.actor_states rd.round_number sts)
    ∧ (∀ (sim : Sim) (N : Nat) (dec : String → Option ActionDecision)
          (seed : Nat) (attempts : List (Option WorldUpdate)) (sim2 : Sim)
          (res : RoundResult),
        sim.current_round = N →
        process_round (gatherActions sim N dec seed) N attempts
          = Except.ok (sim2, res) →
        (process_round_background sim N dec seed attempts).current_round
          = N + 1)
    ∧ (∀ (sim : Sim) (ops : List StorageOp),
        sim.current_round ≤ (applyOps sim ops).current_round) := by
  refine ⟨fun sim rd sts => ⟨rfl, rfl, rfl⟩, ?_, ?_⟩
  · intro sim N dec seed attempts sim2 res hN hok
    have h1 : sim2.current_round = (gatherActions sim N dec seed).current_round :=
      process_round_ok_current_round _ _ _ _ _ hok
    have h2 : (gatherActions sim N dec seed).current_round = sim.current_round :=
      gather_preserve (fun s => s.current_round) (fun _ _ => rfl)
        (fun _ _ => rfl) sim N dec seed
    have hbg : process_round_background sim N dec seed attempts
        = (if res.round_data.continue_simulation then
            sim2.add_round res.round_data res.actor_states
          else (sim2.add_round res.round_data
            res.actor_states).update_simulation_status "completed") := by
      unfold process_round_background
      dsimp only
      rw [hok]
    rw [hbg]
    split <;>
      simp [Sim.add_round, Sim.update_simulation_status, h1, h2, hN]
  · intro sim ops
    induction ops generalizing sim with
    | nil => exact le_refl _
    | cons op rest ih =>
      exact le_trans (applyOp_current_round_le sim op) (ih (applyOp sim op))

/-- Witness for C1: processing round 0 of the concrete `c4Sim` scenario
advances the counter to 1. -/
theorem round_counter_advance_witness :
    (process_round_background c4Sim 0 noDecisions 0 [some wuBoth]).current_round
      = 0 + 1 :=
  round_counter_advances_atomically_and_monotone.2.1 c4Sim 0 noDecisions 0
    [some wuBoth] _ _ rfl rfl

/-- Counterexample to C2 as stated: when every world-update attempt fails,
`_process_round_background` still leaves the simulation changed — the action
gathered in step 1 has already been persisted into the round-0 bucket before
the `ResolutionError` aborts the round. -/
theorem resolution_failure_leaves_gathered_actions :
    process_round_background baseSim 0 c2Decisions 0 [none, none, none]
        ≠ baseSim
      ∧ (process_round_background baseSim 0 c2Decisions 0
          [none, none, none]).get_scheduled_actions 0 ≠ [] := by
  constructor <;> decide

/-- C2 (amended): if round processing aborts with `ResolutionError`, no round
data is persisted — `current_round`, the round-record list, the stored actor
states, the active actions and the lifecycle status are unchanged, and every
pre-existing queue bucket is preserved verbatim (so every pre-existing
ScheduledAction keeps its status); however the actions scheduled and the
messages queued by the gathering phase of the same call remain persisted:
each bucket is the old bucket extended by new "pending" actions, and the
mailbox is the old mailbox extended by messages addressed to round N + 1. -/
theorem resolution_failure_no_round_persistence
    (sim : Sim) (N : Nat) (dec : String → Option ActionDecision) (seed : Nat)
    (attempts : List (Option WorldUpdate)) (err : EngineError)
    (herr : process_round (gatherActions sim N dec seed) N attempts
      = Except.error err) :
    process_round_background sim N dec seed attempts
        = gatherActions sim N dec seed
      ∧ (process_round_background sim N dec seed attempts).current_round
          = sim.current_round
      ∧ (process_round_background sim N dec seed attempts).rounds = sim.rounds
      ∧ (process_round_background sim N dec seed attempts).actor_states
          = sim.actor_states
      ∧ (process_round_background sim N dec seed attempts).active_actions
          = sim.active_actions
      ∧ (process_round_background sim N dec seed attempts).status = sim.status
      ∧ (∀ r : Nat, ∃ e,
          (process_round_background sim N dec seed attempts).get_scheduled_actions r
            = sim.get_scheduled_actions r ++ e ∧ ∀ a ∈ e, a.status = "pending")
      ∧ (∃ e, (process_round_background sim N dec seed attempts).pending_messages
            = sim.pending_messages ++ e
          ∧ ∀ m ∈ e, m.deliver_round = N + 1 ∧ m.sent_round = N) := by
  have hbg : process_round_background sim N dec seed attempts
      = gatherActions sim N dec seed := by
    unfold process_round_background
    dsimp only
    rw [herr]
  refine ⟨hbg, ?_, ?_, ?_, ?_, ?_, ?_, ?_⟩
  · rw [hbg]
    exact gather_preserve (fun s => s.current_round) (fun _ _ => rfl)
      (fun _ _ => rfl) sim N dec seed
  · rw [hbg]
    exact gather_preserve (fun s => s.rounds) (fun _ _ => rfl)
      (fun _ _ => rfl) sim N dec seed
  · rw [hbg]
    exact gather_preserve (fun s => s.actor_states) (fun _ _ => rfl)
      (fun _ _ => rfl) sim N dec seed
  · rw [hbg]
    exact gather_preserve (fun s => s.active_actions) (fun _ _ => rfl)
      (fun _ _ => rfl) sim N dec seed
  · rw [hbg]
    exact gather_preserve (fun s => s.status) (fun _ _ => rfl)
      (fun _ _ => rfl) sim N dec seed
  · intro r
    rw [hbg]
    exact gather_bucket_extends sim N dec seed r
  · rw [hbg]
    exact gather_messages_extends sim N dec seed

/-- Witness for C2's amended theorem: the concrete failing run of the C2
counterexample satisfies it. -/
theorem resolution_failure_no_round_persistence_witness :
    (process_round_background baseSim 0 c2Decisions 0 [none, none, none]).rounds
        = baseSim.rounds
      ∧ (process_round_background baseSim 0 c2Decisions 0
          [none, none, none]).current_round = baseSim.current_round :=
  have h := resolution_failure_no_round_persistence baseSim 0 c2Decisions 0
    [none, none, none] EngineError.resolutionError rfl
  ⟨h.2.2.1, h.2.1⟩

/-- Counterexample to C3 as stated: round 1 of `c3Sim` is processed
successfully (the counter advances to 2), yet a1's `my_actions` after
round 1 are identical to those after round 0 — the extension is not strict.
The empty-round path copies every state forward unchanged, so a round in
which an actor has no resolved action cannot strictly extend its history. -/
theorem my_actions_not_strict_on_empty_round :
    (process_round_background c3Sim 1 noDecisions 0 []).current_round = 2
      ∧ myActionsAt (process_round_background c3Sim 1 noDecisions 0 []) 1 "a1"
          = myActionsAt (process_round_background c3Sim 1 noDecisions 0 []) 0
              "a1"
      ∧ myActionsAt (process_round_background c3Sim 1 noDecisions 0 []) 0 "a1"
          = [item0] := by
  decide

/-- C3 (amended): for a successfully processed non-empty round N, the state
stored for any actor appearing in the world update's `actor_updates` has
`my_actions` equal to that actor's previous history extended by exactly one
entry when the actor had a due action in round N (the entry's
`scheduled_round` is N) and by nothing otherwise — an order-preserving,
append-only extension that is strict exactly when a due action of the actor
was resolved; an empty round copies every previous state forward unchanged,
so its extension is never strict. -/
theorem my_actions_append_only_extension :
    (∀ (sim : Sim) (n : Nat) (attempts : List (Option WorldUpdate))
        (sim2 : Sim) (res : RoundResult) (wu : WorldUpdate)
        (actor_id : String) (st : ActorState),
      process_round sim n attempts = Except.ok (sim2, res) →
      callWorldUpdateProvider attempts = some wu →
      sim.get_scheduled_actions n ≠ [] →
      alistGet res.actor_states actor_id = some st →
      (st.my_actions = prevMyActions sim n actor_id ++
          (match alistGet (actionItemsByActor n wu.action_results
              (sim.get_scheduled_actions n)) actor_id with
           | some it => [it]
           | none => [])
        ∧ (∀ it, alistGet (actionItemsByActor n wu.action_results
              (sim.get_scheduled_actions n)) actor_id = some it →
            it.scheduled_round = n)
        ∧ ((alistGet (actionItemsByActor n wu.action_results
              (sim.get_scheduled_actions n)) actor_id).isSome = true
            ↔ ∃ sa ∈ sim.get_scheduled_actions n, sa.actor_id = actor_id)))
    ∧ (∀ (sim : Sim) (n : Nat) (attempts : List (Option WorldUpdate))
        (sim2 : Sim) (res : RoundResult),
      process_round sim n attempts = Except.ok (sim2, res) →
      sim.get_scheduled_actions n = [] →
      res.actor_states = prevStatesOf sim n) := by
  constructor
  · intro sim n attempts sim2 res wu actor_id st hok hwu hne hget
    rcases process_round_ok_cases sim n attempts sim2 res hok with
      ⟨hb, _, _⟩ | ⟨wu', hb, hwu', hsim2, hres⟩
    · exact absurd hb hne
    · rw [hwu'] at hwu
      have hwueq := Option.some_inj.mp hwu
      subst hwueq
      rw [hres] at hget
      obtain ⟨u, hu, hk, hv⟩ := convert_states_get _ _ _ _ _ _ _ hget
      refine ⟨?_, ?_, ?_, ?_⟩
      · rw [hv, buildActorState_my_actions, hk]
        rfl
      · intro it hit
        obtain ⟨s', hs', hk', hv'⟩ := actionItems_get _ _ _ _ _ hit
        rw [hv']
        exact buildActionItem_scheduled_round _ _ _
      · intro hsome
        cases hit : alistGet (actionItemsByActor n wu'.action_results
            (sim.get_scheduled_actions n)) actor_id with
        | none => rw [hit] at hsome; exact absurd hsome (by simp)
        | some it =>
          obtain ⟨s', hs', hk', _⟩ := actionItems_get _ _ _ _ _ hit
          exact ⟨s', hs', hk'⟩
      · intro hex
        exact actionItems_isSome _ _ _ _ hex
  · intro sim n attempts sim2 res hok hb
    rcases process_round_ok_cases sim n attempts sim2 res hok with
      ⟨_, _, hres⟩ | ⟨_, hne, _, _, _⟩
    · rw [hres]
    · exact absurd hb hne

/-- Witness for C3's amended theorem: in the concrete one-action round of
`c9Sim`, a1's stored history is its (empty) previous history extended by
this round's action item. -/
theorem my_actions_append_only_extension_witness :
    ∃ (sim2 : Sim) (res : RoundResult) (st : ActorState),
      process_round c9Sim 0 [some wuBoth] = Except.ok (sim2, res)
        ∧ alistGet res.actor_states "a1" = some st
        ∧ st.my_actions = prevMyActions c9Sim 0 "a1" ++
            (match alistGet (actionItemsByActor 0 wuBoth.action_results
                (c9Sim.get_scheduled_actions 0)) "a1" with
             | some it => [it]
             | none => []) := by
  refine ⟨_, _, _, rfl, rfl, ?_⟩
  exact (my_actions_append_only_extension.1 c9Sim 0 [some wuBoth] _ _ wuBoth
    "a1" _ rfl rfl (by decide) rfl).1

/-- Counterexample to C4 as stated: a duration-2 action starts in round 0,
so its ActiveAction has `completes_round = 2`; but round 2 has no due
actions, the empty-round path skips completion detection, and after round 2
has been processed (the counter is 3) the entry is still in the tracker —
it is neither absent at/after R + D nor removed when the counter reached its
completion round. -/
theorem active_action_survives_empty_completion_round :
    c4Run.current_round = 3
      ∧ (promoteAction 0 c4sa).completes_round = 2
      ∧ c4Run.active_actions = [promoteAction 0 c4sa] := by
  decide

/-- C4 (amended): processing the starting round promotes a due multi-round
action into the tracker; the entry then survives every processed round that
is not its completion round (and every empty round); it is removed by
processing its completion round only when that round has at least one due
action — an empty completion round leaves the tracker untouched. -/
theorem active_action_lifecycle :
    (∀ (sim : Sim) (n : Nat) (attempts : List (Option WorldUpdate))
        (sim2 : Sim) (res : RoundResult) (sa : ScheduledAction),
      process_round sim n attempts = Except.ok (sim2, res) →
      sa ∈ sim.get_scheduled_actions n → 1 < sa.duration →
      (∀ a ∈ sim.active_actions, a.started_round < a.completes_round) →
      promoteAction n sa ∈ sim2.active_actions)
    ∧ (∀ (sim : Sim) (n : Nat) (attempts : List (Option WorldUpdate))
        (sim2 : Sim) (res : RoundResult) (e : ActiveAction),
      process_round sim n attempts = Except.ok (sim2, res) →
      e ∈ sim.active_actions →
      (∀ c ∈ sim.active_actions, c.completes_round = n →
        ¬(c.actor_id = e.actor_id ∧ c.started_round = e.started_round)) →
      e ∈ sim2.active_actions)
    ∧ (∀ (sim : Sim) (n : Nat) (attempts : List (Option WorldUpdate))
        (sim2 : Sim) (res : RoundResult) (e : ActiveAction),
      process_round sim n attempts = Except.ok (sim2, res) →
      sim.get_scheduled_actions n ≠ [] →
      e ∈ sim.active_actions → e.completes_round = n →
      e ∉ sim2.active_actions)
    ∧ (∀ (sim : Sim) (n : Nat) (attempts : List (Option WorldUpdate))
        (sim2 : Sim) (res : RoundResult),
      process_round sim n attempts = Except.ok (sim2, res) →
      sim.get_scheduled_actions n = [] →
      sim2.active_actions = sim.active_actions) := by
  have hmid : ∀ (sim : Sim) (n : Nat) (wu : WorldUpdate),
      (applyStatusUpdates n wu.action_results
        (applyClear n (sim.get_messages_for_round n) sim)).active_actions
      = sim.active_actions := by
    intro sim n wu
    rw [applyStatusUpdates_preserve (fun s => s.active_actions)
        (fun _ _ _ _ _ => rfl),
      applyClear_preserve (fun s => s.active_actions) (fun _ _ => rfl)]
  refine ⟨?_, ?_, ?_, ?_⟩
  · intro sim n attempts sim2 res sa hok hsa hdur hwf
    rcases process_round_ok_cases sim n attempts sim2 res hok with
      ⟨hb, _, _⟩ | ⟨wu, hb, hwu, hsim2, hres⟩
    · exact absurd hb (List.ne_nil_of_mem hsa)
    · rw [hsim2]
      apply applyCompletions_mem
      · rw [applyPromotions_actives, hmid]
        exact List.mem_append_right _ (promotedOf_mem n sa _ hsa hdur)
      · intro c hc hcn hpair
        have hlt := hwf c hc
        rw [hcn] at hlt
        have : c.started_round = n := hpair.2
        omega
  · intro sim n attempts sim2 res e hok he hno
    rcases process_round_ok_cases sim n attempts sim2 res hok with
      ⟨_, hsim2, _⟩ | ⟨wu, hb, hwu, hsim2, hres⟩
    · rw [hsim2]; exact he
    · rw [hsim2]
      apply applyCompletions_mem
      · rw [applyPromotions_actives, hmid]
        exact List.mem_append_left _ he
      · exact hno
  · intro sim n attempts sim2 res e hok hne he hc
    rcases process_round_ok_cases sim n attempts sim2 res hok with
      ⟨hb, _, _⟩ | ⟨wu, hb, hwu, hsim2, hres⟩
    · exact absurd hb hne
    · rw [hsim2]
      exact applyCompletions_not_mem n sim.active_actions _ e e he hc rfl rfl
  · intro sim n attempts sim2 res hok hb
    rcases process_round_ok_cases sim n attempts sim2 res hok with
      ⟨_, hsim2, _⟩ | ⟨_, hne, _, _, _⟩
    · rw [hsim2]
    · exact absurd hb hne

/-- Witness for C4's amended theorem: processing round 0 of `c4Sim` puts the
promoted duration-2 action into the tracker. -/
theorem active_action_lifecycle_witness :
    ∃ (sim2 : Sim) (res : RoundResult),
      process_round c4Sim 0 [some wuBoth] = Except.ok (sim2, res)
        ∧ promoteAction 0 c4sa ∈ sim2.active_actions := by
  refine ⟨_, _, rfl, ?_⟩
  exact active_action_lifecycle.1 c4Sim 0 [some wuBoth] _ _ c4sa rfl
    (by decide) (by decide) (by decide)

/-- C5 (code bug): the schedule endpoint performs no past-round validation.
With the simulation at round 5, a request targeting round 3 is accepted:
the action is persisted into the round-3 bucket — a round that will never be
processed again — and the simulation is mutated, where the endpoint's
documented contract ("Actors can schedule actions for the current round or
future rounds") and the spec call for a rejection with nothing mutated. -/
theorem schedule_past_round_accepted :
    c5Req.execute_round < c5Sim.current_round
      ∧ api_schedule_action c5Sim c5Req 7 ≠ c5Sim
      ∧ (api_schedule_action c5Sim c5Req 7).get_scheduled_actions 3
          = [{ actor_id := "a1", action := "late", reasoning := "r",
               scheduled_round := 3, duration := 1, random_seed := 7,
               scheduled_at_round := 5, status := "pending", outcome := none,
               outcome_quality := none, outcome_explanation := none }] := by
  decide

/-- Counterexample to C6 as stated: in the concrete `c6Run` (message sent in
round 0, delivered with round 1, round 2 empty) the message appears in Bob's
ActorRoundState for round 1 *and* for round 2: the empty-round path copies
the previous round's states forward verbatim, `messages_received`
included — so the message does not appear in the round-N+1 state only. -/
theorem message_reappears_in_copied_state :
    c6Run.current_round = 3
      ∧ c6Msg ∈ messagesReceivedAt c6Run 1 "b1"
      ∧ c6Msg ∈ messagesReceivedAt c6Run 2 "b1" := by
  decide

/-- C6 (amended): a message accepted during round N's gathering phase is
queued with deliver round N + 1; when a round N is processed with at least
one due action, the state stored for each actor of `actor_updates` receives
exactly the queued messages addressed to it whose deliver round is N, and
the mailbox is purged of every deliver-round-N message regardless of
recipient; an empty round touches neither the mailbox nor the states
(it copies the previous states forward, received messages included). -/
theorem message_delivery_and_purge :
    (∀ (roster : List Actor) (actor : Actor) (n : Nat) (sim : Sim)
        (m : MessageProposal) (recipient : Actor),
      roster.find? (fun a => a.identifier == m.to_actor_id)
          = some recipient →
      (deliverMessageProposal roster actor n sim m).pending_messages
        = sim.pending_messages ++
          [{ from_actor_id := actor.actor_id,
             from_actor_identifier := actor.identifier,
             to_actor_id := recipient.actor_id,
             to_actor_identifier := recipient.identifier,
             content := m.content, sent_round := n,
             deliver_round := n + 1 }])
    ∧ (∀ (sim : Sim) (n : Nat) (attempts : List (Option WorldUpdate))
        (sim2 : Sim) (res : RoundResult),
      process_round sim n attempts = Except.ok (sim2, res) →
      sim.get_scheduled_actions n ≠ [] →
      sim2.pending_messages
        = sim.pending_messages.filter (fun m => !(m.deliver_round == n)))
    ∧ (∀ (sim : Sim) (n : Nat) (attempts : List (Option WorldUpdate))
        (sim2 : Sim) (res : RoundResult) (actor_id : String)
        (st : ActorState),
      process_round sim n attempts = Except.ok (sim2, res) →
      sim.get_scheduled_actions n ≠ [] →
      alistGet res.actor_states actor_id = some st →
      st.messages_received
        = ((sim.get_messages_for_round n).filter
            (fun m => m.to_actor_id == actor_id)).map toReceivedMessage)
    ∧ (∀ (sim : Sim) (n : Nat) (attempts : List (Option WorldUpdate))
        (sim2 : Sim) (res : RoundResult),
      process_round sim n attempts = Except.ok (sim2, res) →
      sim.get_scheduled_actions n = [] →
      sim2.pending_messages = sim.pending_messages
        ∧ res.actor_states = prevStatesOf sim n) := by
  refine ⟨?_, ?_, ?_, ?_⟩
  · intro roster actor n sim m recipient hfind
    unfold deliverMessageProposal
    rw [hfind]
    rfl
  · intro sim n attempts sim2 res hok hne
    rcases process_round_ok_cases sim n attempts sim2 res hok with
      ⟨hb, _, _⟩ | ⟨wu, hb, hwu, hsim2, hres⟩
    · exact absurd hb hne
    · rw [hsim2,
        applyCompletions_preserve (fun s => s.pending_messages)
          (fun _ _ _ => rfl),
        applyPromotions_preserve (fun s => s.pending_messages)
          (fun _ _ => rfl),
        applyStatusUpdates_preserve (fun s => s.pending_messages)
          (fun _ _ _ _ _ => rfl),
        applyClear_pending]
  · intro sim n attempts sim2 res actor_id st hok hne hget
    rcases process_round_ok_cases sim n attempts sim2 res hok with
      ⟨hb, _, _⟩ | ⟨wu, hb, hwu, hsim2, hres⟩
    · exact absurd hb hne
    · rw [hres] at hget
      obtain ⟨u, hu, hk, hv⟩ := convert_states_get _ _ _ _ _ _ _ hget
      rw [hv, buildActorState_messages, hk]
  · intro sim n attempts sim2 res hok hb
    rcases process_round_ok_cases sim n attempts sim2 res hok with
      ⟨_, hsim2, hres⟩ | ⟨_, hne, _, _, _⟩
    · rw [hsim2, hres]
      exact ⟨rfl, rfl⟩
    · exact absurd hb hne

/-- Witness for C6's amended theorem: Alice's message to Bob is queued for
round 1 when sent during round 0. -/
theorem message_delivery_and_purge_witness :
    (deliverMessageProposal [actorA, actorB] actorA 0 baseSim
        ⟨"Bob", "hi"⟩).pending_messages
      = baseSim.pending_messages ++
        [{ from_actor_id := "a1", from_actor_identifier := "Alice",
           to_actor_id := "b1", to_actor_identifier := "Bob",
           content := "hi", sent_round := 0, deliver_round := 0 + 1 }] :=
  message_delivery_and_purge.1 [actorA, actorB] actorA 0 baseSim
    ⟨"Bob", "hi"⟩ actorB (by decide)

/-- Counterexample to C7 as stated: the synthetic empty-round record carries
the world summary "No actions occurred this round.", not the claimed
"no actions occurred". -/
theorem empty_round_summary_text_differs :
    process_round baseSim 0 [] = Except.ok (baseSim,
        ⟨emptyRoundRecord 0, prevStatesOf baseSim 0⟩)
      ∧ (emptyRoundRecord 0).world_state_summary ≠ "no actions occurred"
      ∧ (emptyRoundRecord 0).world_state_summary
          = "No actions occurred this round." := by
  exact ⟨rfl, by decide, rfl⟩

/-- C7 (amended): a round with zero due actions never consults the World
Update Provider (the result is the same for every list of provider
attempts) and synthesizes the empty-round result: the record with world
summary "No actions occurred this round.", `continue_simulation = true` and
no changes, with the previous round's actor states copied forward unchanged
and the simulation state untouched. -/
theorem empty_round_synthesis (sim : Sim) (n : Nat)
    (attempts : List (Option WorldUpdate))
    (h : sim.get_scheduled_actions n = []) :
    process_round sim n attempts
        = Except.ok (sim, ⟨emptyRoundRecord n, prevStatesOf sim n⟩)
      ∧ (emptyRoundRecord n).world_state_summary
          = "No actions occurred this round."
      ∧ (emptyRoundRecord n).continue_simulation = true
      ∧ (emptyRoundRecord n).key_changes = []
      ∧ (emptyRoundRecord n).emergent_developments = []
      ∧ (emptyRoundRecord n).action_results = []
      ∧ (∀ attempts2, process_round sim n attempts
          = process_round sim n attempts2) := by
  refine ⟨process_round_empty sim n attempts h, rfl, rfl, rfl, rfl, rfl, ?_⟩
  intro attempts2
  rw [process_round_empty sim n attempts h,
    process_round_empty sim n attempts2 h]

/-- Witness for C7's amended theorem: the empty round 0 of `baseSim`
synthesizes the empty-round result even when a provider attempt is
available (it is never consulted). -/
theorem empty_round_synthesis_witness :
    process_round baseSim 0 [some wuBoth]
      = Except.ok (baseSim, ⟨emptyRoundRecord 0, prevStatesOf baseSim 0⟩) :=
  (empty_round_synthesis baseSim 0 [some wuBoth] rfl).1

/-- Counterexample to C8 as stated: processing the round with two due
multi-round actions of the same actor produces two distinct tracker entries
with the same (actor, startedRound) pair — promotion has no idempotent
guard. -/
theorem promote_duplicates_same_pair :
    c8Actives = some [promoteAction 0 c8sa1, promoteAction 0 c8sa2]
      ∧ (promoteAction 0 c8sa1).actor_id = (promoteAction 0 c8sa2).actor_id
      ∧ (promoteAction 0 c8sa1).started_round
          = (promoteAction 0 c8sa2).started_round
      ∧ promoteAction 0 c8sa1 ≠ promoteAction 0 c8sa2 := by
  decide

/-- C8 (amended): `add_active_action` appends unconditionally — promoting a
second action for an (actor, startedRound) pair that already has an entry
creates a duplicate; at most one entry per pair holds only by construction
when each actor has at most one due multi-round action per round, and
`complete_active_action` removes every entry matching the pair at once. -/
theorem add_active_action_appends :
    (∀ (sim : Sim) (aa : ActiveAction),
        (sim.add_active_action aa).active_actions
          = sim.active_actions ++ [aa])
    ∧ (∀ (sim : Sim) (actor : String) (r : Nat),
        (sim.complete_active_action actor r).active_actions
          = sim.active_actions.filter
              (fun a => !(a.actor_id == actor && a.started_round == r))) :=
  ⟨fun _ _ => rfl, fun _ _ _ => rfl⟩

/-- Counterexample to C9 as stated: asked to transition the action of an
actor that has no action in the round-0 bucket, `setStatus` does not fail
with `NotFound` — it silently succeeds, returning the simulation
completely unchanged. -/
theorem set_status_silently_succeeds :
    (∀ a ∈ c9Sim.get_scheduled_actions 0, a.actor_id ≠ "ghost")
      ∧ c9Sim.update_scheduled_action_status 0 "ghost" "completed" none
          = c9Sim := by
  decide

/-- C9 (amended): when no action of the given actor is in the round's
bucket, `update_scheduled_action_status` completes without any failure,
writing the unchanged bucket back (creating an empty bucket for a round
that had none) — there is no `NotFound` error path. -/
theorem set_status_no_match_writes_back (sim : Sim) (n : Nat)
    (actor status : String) (outcome : Option OutcomeDict)
    (h : ∀ a ∈ sim.get_scheduled_actions n, a.actor_id ≠ actor) :
    sim.update_scheduled_action_status n actor status outcome
      = { sim with action_schedule :=
          (alistSet sim.action_schedule n (sim.get_scheduled_actions n)) } := by
  unfold Sim.update_scheduled_action_status
  dsimp only
  rw [updateActionInList_no_match actor status outcome _ h]

/-- Witness for C9's amended theorem at the concrete `c9Sim` input. -/
theorem set_status_no_match_writes_back_witness :
    c9Sim.update_scheduled_action_status 0 "ghost" "completed" none
      = { c9Sim with action_schedule :=
          (alistSet c9Sim.action_schedule 0 (c9Sim.get_scheduled_actions 0)) } :=
  set_status_no_match_writes_back c9Sim 0 "ghost" "completed" none (by decide)

/-- C10: a due action whose actor is missing from the world update's
`action_results` does not fail the round: processing succeeds, the
`my_actions` entry appended for that actor (when it appears in
`actor_updates`) records outcome "UNKNOWN" with status "completed" and no
quality band, while the actor's queue entry is left untouched by the status
write phase (only actors present in `action_results` are transitioned). -/
theorem missing_action_result_unknown_outcome (sim : Sim) (n : Nat)
    (attempts : List (Option WorldUpdate)) (wu : WorldUpdate)
    (sa : ScheduledAction)
    (hwu : callWorldUpdateProvider attempts = some wu)
    (hsa : sa ∈ sim.get_scheduled_actions n)
    (hmiss : ∀ r ∈ wu.action_results, r.actor_id ≠ sa.actor_id) :
    ∃ (sim2 : Sim) (res : RoundResult),
      process_round sim n attempts = Except.ok (sim2, res)
        ∧ (∀ st, alistGet res.actor_states sa.actor_id = some st →
            ∃ it, st.my_actions = prevMyActions sim n sa.actor_id ++ [it]
              ∧ it.outcome = "UNKNOWN" ∧ it.status = "completed"
              ∧ it.outcome_quality = none)
        ∧ ((sim2.get_scheduled_actions n).filter
              (fun a => a.actor_id == sa.actor_id)
            = (sim.get_scheduled_actions n).filter
              (fun a => a.actor_id == sa.actor_id)) := by
  have hne : sim.get_scheduled_actions n ≠ [] := List.ne_nil_of_mem hsa
  refine ⟨_, _, process_round_some sim n attempts wu hne hwu, ?_, ?_⟩
  · intro st hget
    obtain ⟨u, hu, hk, hv⟩ := convert_states_get _ _ _ _ _ _ _ hget
    have hsome := actionItems_isSome n wu.action_results
      (sim.get_scheduled_actions n) sa.actor_id ⟨sa, hsa, rfl⟩
    cases hit : alistGet (actionItemsByActor n wu.action_results
        (sim.get_scheduled_actions n)) sa.actor_id with
    | none => rw [hit] at hsome; exact absurd hsome (by simp)
    | some it =>
      obtain ⟨s', hs', hk', hv'⟩ := actionItems_get _ _ _ _ _ hit
      have hmiss' : ∀ r ∈ wu.action_results, r.actor_id ≠ s'.actor_id := by
        rw [hk']; exact hmiss
      have hno := buildActionItem_no_result n wu.action_results s' hmiss'
      refine ⟨it, ?_, ?_, ?_, ?_⟩
      · rw [hv, buildActorState_my_actions, hk, hit]
        rfl
      · rw [hv']; exact hno.1
      · rw [hv']; exact hno.2.1
      · rw [hv']; exact hno.2.2
  · rw [applyCompletions_preserve
        (fun s => (s.get_scheduled_actions n).filter
          (fun a => a.actor_id == sa.actor_id)) (fun _ _ _ => rfl),
      applyPromotions_preserve
        (fun s => (s.get_scheduled_actions n).filter
          (fun a => a.actor_id == sa.actor_id)) (fun _ _ => rfl),
      applyStatusUpdates_filter n sa.actor_id wu.action_results hmiss,
      applyClear_preserve
        (fun s => (s.get_scheduled_actions n).filter
          (fun a => a.actor_id == sa.actor_id)) (fun _ _ => rfl)]

/-- Witness for C10: the concrete round of `c9Sim` processed with `c10WU`
(whose `action_results` omit a1) succeeds, appends an "UNKNOWN" history
entry for a1, and leaves a1's queue entry pending. -/
theorem missing_action_result_unknown_outcome_witness :
    ∃ (sim2 : Sim) (res : RoundResult),
      process_round c9Sim 0 [some c10WU] = Except.ok (sim2, res)
        ∧ (∀ st, alistGet res.actor_states "a1" = some st →
            ∃ it, st.my_actions = prevMyActions c9Sim 0 "a1" ++ [it]
              ∧ it.outcome = "UNKNOWN" ∧ it.status = "completed"
              ∧ it.outcome_quality = none)
        ∧ ((sim2.get_scheduled_actions 0).filter
              (fun a => a.actor_id == "a1")
            = (c9Sim.get_scheduled_actions 0).filter
              (fun a => a.actor_id == "a1")) :=
  missing_action_result_unknown_outcome c9Sim 0 [some c10WU] c10WU c9sa rfl
    (by decide) (by decide)

end ActorsActions
